import Mathlib

/-!
Shallow embedding of the novel caching orchestrator of this repository
(`backend/app/services/novel_cache_service.py` and the cache endpoints in
`backend/app/main.py`), together with theorems settling the specification
claims about it.

Modelling conventions:
* Database rows become Lean structures; the two stores become lists of rows.
* `datetime.now()` becomes a logical clock (`clock : Nat`) carried in the
  loop state and bumped at every use; monotonicity of real time is all the
  code relies on.
* `crawler.get_chapter_content(url)` becomes a function
  `fetch : String → Except String String`: `Except.error e` models a raised
  exception, `Except.ok c` models a returned payload whose `"content"` field
  is `c` (possibly the empty string).
* The in-memory cancellation registry check performed at the top of every
  loop iteration becomes a predicate `cancelAt : Nat → Bool` giving, for each
  iteration index, what that check observes.
* Calls to `_notify_progress_update` are recorded in an `events` trace (the
  snapshots published to the progress broadcaster); per-websocket delivery
  and pruning of dead connections are below the level of this model.
-/

/-- One entry of the chapter list returned by `crawler.get_chapter_list`:
a dict with `title`, `url` and (on the first entry) `novel_title` /
`novel_author` keys. -/
structure ChapterInfo where
  title : String
  url : String
  novel_title : String := ""
  novel_author : String := ""
deriving DecidableEq

/-- A row of the `novel_chapters_cache` table (`ChapterCache` model), with
the columns the service writes. -/
structure ChapterCacheRow where
  task_id : Nat
  novel_url : String
  chapter_title : String
  chapter_url : String
  chapter_content : String
  chapter_index : Nat
  word_count : Nat
deriving DecidableEq

/-- A row of the `novel_cache_tasks` table (`CacheTask` model). Timestamps
are logical-clock values. -/
structure CacheTaskRec where
  id : Nat
  novel_url : String
  novel_title : String
  novel_author : String
  status : String
  total_chapters : Nat
  cached_chapters : Nat
  failed_chapters : Nat
  created_at : Nat
  updated_at : Nat
  completed_at : Option Nat
  error_message : Option String
deriving DecidableEq

/-- The progress payload built by `_notify_progress_update` (and, with the
same fields, by the websocket endpoint's immediate send). `progress` is the
exact rational value of `cached_chapters / total_chapters * 100`. -/
structure ProgressData where
  task_id : Nat
  status : String
  total_chapters : Nat
  cached_chapters : Nat
  failed_chapters : Nat
  progress : Rat
  updated_at : Nat
  error_message : Option String
deriving DecidableEq

/-- Builds the progress payload from the current task row, mirroring the
dict literal in `_notify_progress_update`. -/
def progressDataOf (task : CacheTaskRec) : ProgressData :=
  { task_id := task.id
    status := task.status
    total_chapters := task.total_chapters
    cached_chapters := task.cached_chapters
    failed_chapters := task.failed_chapters
    progress :=
      if task.total_chapters > 0 then
        (task.cached_chapters : Rat) / (task.total_chapters : Rat) * 100
      else 0
    updated_at := task.updated_at
    error_message := task.error_message }

/-- Mirrors one `_notify_progress_update` call: append the payload built
from the current task row to the published-events trace. -/
def notifyProgress (events : List ProgressData) (task : CacheTaskRec) :
    List ProgressData :=
  events ++ [progressDataOf task]

/-- State threaded through `_cache_chapters`: the task row, the chapter rows
written so far, the trace of published snapshots, the logical clock, and the
number of loop iterations whose body was entered. -/
structure LoopState where
  task : CacheTaskRec
  rows : List ChapterCacheRow
  events : List ProgressData
  clock : Nat
  processed : Nat
deriving DecidableEq

/-- One iteration body of the fetch loop (`_cache_chapters` lines 133-193),
for chapter `c` at index `i`, excluding the cancellation check:
* if a `ChapterCache` row with the same `chapter_url` exists (the query
  filters on `chapter_url` only), skip the fetch but still set
  `cached_chapters = i + 1`, touch `updated_at` and publish a snapshot;
* else fetch; on an exception only `failed_chapters` is incremented (the
  `except` block touches nothing else and publishes nothing);
* on empty content, `continue` with no updates at all;
* on nonempty content, insert the new row, set `cached_chapters = i + 1`,
  touch `updated_at` and publish a snapshot. -/
def processChapter (novelUrl : String) (fetch : String → Except String String)
    (i : Nat) (c : ChapterInfo) (st : LoopState) : LoopState :=
  let st := { st with processed := st.processed + 1 }
  if st.rows.any (fun r => r.chapter_url == c.url) then
    let task := { st.task with cached_chapters := i + 1, updated_at := st.clock }
    { st with
      task := task
      clock := st.clock + 1
      events := notifyProgress st.events task }
  else
    match fetch c.url with
    | Except.error _ =>
        { st with
          task := { st.task with failed_chapters := st.task.failed_chapters + 1 } }
    | Except.ok content =>
        if content = "" then
          st
        else
          let row : ChapterCacheRow :=
            { task_id := st.task.id
              novel_url := novelUrl
              chapter_title := c.title
              chapter_url := c.url
              chapter_content := content
              chapter_index := i
              word_count := content.length }
          let task := { st.task with cached_chapters := i + 1, updated_at := st.clock }
          { st with
            rows := st.rows ++ [row]
            task := task
            clock := st.clock + 1
            events := notifyProgress st.events task }

/-- The `for i, chapter in enumerate(chapters)` loop of `_cache_chapters`:
before each iteration the cancellation registry is consulted; if it reports
cancelled (or the task id is gone) the loop breaks at once. -/
def loopChapters (novelUrl : String) (fetch : String → Except String String)
    (cancelAt : Nat → Bool) : Nat → List ChapterInfo → LoopState → LoopState
  | _, [], st => st
  | i, c :: rest, st =>
      if cancelAt i then st
      else
        loopChapters novelUrl fetch cancelAt (i + 1) rest
          (processChapter novelUrl fetch i c st)

/-- `_cache_chapters` on its normal path (the outer `except` branch that
marks the task `failed` on a persistence error is not modelled):
mark the task running, run the loop, then unconditionally mark it
`completed` (lines 196-200 run whether the loop finished or broke out on
cancellation), and in the `finally` block publish one final snapshot. -/
def cacheChapters (novelUrl : String) (fetch : String → Except String String)
    (cancelAt : Nat → Bool) (chapters : List ChapterInfo) (st0 : LoopState) :
    LoopState :=
  let st1 :=
    { st0 with
      task := { st0.task with status := "running", updated_at := st0.clock }
      clock := st0.clock + 1 }
  let st2 := loopChapters novelUrl fetch cancelAt 0 chapters st1
  let st3 :=
    { st2 with
      task :=
        { st2.task with
          status := "completed"
          completed_at := some st2.clock
          updated_at := st2.clock }
      clock := st2.clock + 1 }
  { st3 with events := notifyProgress st3.events st3.task }

/-- `cancel_task`: if the task exists and is pending or running, persist
status `cancelled` and return `true` (the in-memory registry flip is part of
`cancelAt` in this model); otherwise return `false` with the store
untouched. -/
def cancel_task (task? : Option CacheTaskRec) (now : Nat) :
    Bool × Option CacheTaskRec :=
  match task? with
  | none => (false, none)
  | some task =>
      if task.status == "pending" || task.status == "running" then
        (true, some { task with status := "cancelled", updated_at := now })
      else
        (false, some task)

/-- `Except` outcome test for a modelled `get_chapter_content` call. -/
def isErr : Except String String → Bool
  | Except.error _ => true
  | Except.ok _ => false

/-- What `crawler.get_chapter_list(novel_url)` did inside the `try` of
`create_cache_task`: either it raised, or it returned a (possibly empty)
chapter list. -/
inductive ChapterListResult where
  | raises
  | ok (chapters : List ChapterInfo)
deriving DecidableEq

/-- `create_cache_task` (`novel_cache_service.py` lines 27-91), up to the
point where the task row is persisted. `hasCrawler` models whether
`get_crawler_for_url` found an adapter. Returns the (possibly extended)
task store together with the created/reused task or the raised error; on
every error path the store is returned unchanged, because `db.add`/`commit`
only run after all checks pass. The fire-and-forget dispatch of
`_cache_chapters` is modelled separately by `cacheChapters`. -/
def create_cache_task (hasCrawler : Bool) (listResult : ChapterListResult)
    (store : List CacheTaskRec) (novelUrl : String) (newId : Nat) (now : Nat) :
    List CacheTaskRec × Except String CacheTaskRec :=
  if !hasCrawler then
    (store, Except.error ("unsupported site: " ++ novelUrl))
  else
    match listResult with
    | ChapterListResult.raises =>
        (store, Except.error "failed to get chapter list")
    | ChapterListResult.ok chapters =>
        if chapters.isEmpty then
          (store, Except.error "failed to get chapter list")
        else
          match store.find? (fun t =>
              t.novel_url == novelUrl &&
                (t.status == "pending" || t.status == "running")) with
          | some existing => (store, Except.ok existing)
          | none =>
              let title :=
                match chapters.head? with
                | some c => c.novel_title
                | none => ""
              let author :=
                match chapters.head? with
                | some c => c.novel_author
                | none => ""
              let task : CacheTaskRec :=
                { id := newId
                  novel_url := novelUrl
                  novel_title := title
                  novel_author := author
                  status := "pending"
                  total_chapters := chapters.length
                  cached_chapters := 0
                  failed_chapters := 0
                  created_at := now
                  updated_at := now
                  completed_at := none
                  error_message := none }
              (store ++ [task], Except.ok task)

/-- Insert one task into a list kept sorted by `created_at` descending. -/
def insertByCreatedDesc (t : CacheTaskRec) :
    List CacheTaskRec → List CacheTaskRec
  | [] => [t]
  | h :: rest =>
      if h.created_at ≤ t.created_at then t :: h :: rest
      else h :: insertByCreatedDesc t rest

/-- `order_by(CacheTask.created_at.desc())` as an insertion sort. -/
def sortByCreatedDesc (l : List CacheTaskRec) : List CacheTaskRec :=
  l.foldr insertByCreatedDesc []

/-- `NovelCacheService.get_cache_tasks`: optional status filter, order by
creation time descending, then `offset` and `limit`. -/
def get_cache_tasks (store : List CacheTaskRec) (status : Option String)
    (limit offset : Nat) : List CacheTaskRec :=
  let q :=
    match status with
    | some s => store.filter (fun t => t.status == s)
    | none => store
  ((sortByCreatedDesc q).drop offset).take limit

/-- The response body of `GET /api/cache/tasks` (`main.py` lines 166-202):
the page of tasks and a `total` field. -/
structure TaskListResponse where
  tasks : List CacheTaskRec
  total : Nat
deriving DecidableEq

/-- The `get_cache_tasks` endpoint: fetch one page from the service and set
`"total": len(tasks)` (`main.py` line 201). -/
def get_cache_tasks_endpoint (store : List CacheTaskRec) (status : Option String)
    (limit offset : Nat) : TaskListResponse :=
  let tasks := get_cache_tasks store status limit offset
  { tasks := tasks, total := tasks.length }

/-- `add_websocket_connection`: append the channel to the task's list of
subscribed websockets (channels are modelled by numeric ids). -/
def add_websocket_connection (conns : List (Nat × Nat)) (task_id ws : Nat) :
    List (Nat × Nat) :=
  conns ++ [(task_id, ws)]

/-- The subscription phase of the `/ws/cache/{task_id}` endpoint
(`main.py` lines 283-317): register the connection, then immediately read
the task's current row and send one snapshot built from it (or send nothing
if the task does not exist). The later keep-alive receive loop is not
modelled. -/
def cache_progress_websocket (store : List CacheTaskRec)
    (conns : List (Nat × Nat)) (task_id ws : Nat) :
    List (Nat × Nat) × Option ProgressData :=
  let conns2 := add_websocket_connection conns task_id ws
  match store.find? (fun t => t.id == task_id) with
  | none => (conns2, none)
  | some task =>
      (conns2,
        some
          { task_id := task_id
            status := task.status
            total_chapters := task.total_chapters
            cached_chapters := task.cached_chapters
            failed_chapters := task.failed_chapters
            progress :=
              if task.total_chapters > 0 then
                (task.cached_chapters : Rat) / (task.total_chapters : Rat) * 100
              else 0
            updated_at := task.updated_at
            error_message := task.error_message })

/-! Concrete inputs used to evaluate the model at specific runs. -/

/-- A freshly created task row, as `create_cache_task` persists it. -/
def taskBase : CacheTaskRec :=
  { id := 1
    novel_url := "https://site/novel/1"
    novel_title := ""
    novel_author := ""
    status := "pending"
    total_chapters := 0
    cached_chapters := 0
    failed_chapters := 0
    created_at := 0
    updated_at := 0
    completed_at := none
    error_message := none }

/-- Two-chapter run in which the cancellation registry reports cancelled
from the check before iteration 1 onwards. -/
def runC1 : LoopState :=
  cacheChapters "https://site/novel/1" (fun _ => Except.ok "body")
    (fun j => decide (1 ≤ j))
    [{ title := "A", url := "c1u0" }, { title := "B", url := "c1u1" }]
    { task := { taskBase with total_chapters := 2 }
      rows := [], events := [], clock := 1, processed := 0 }

/-- Two-chapter run where chapter 0's fetch raises and chapter 1 succeeds. -/
def runC2 : LoopState :=
  cacheChapters "https://site/novel/2"
    (fun u => if u == "c2u0" then Except.error "boom" else Except.ok "text")
    (fun _ => false)
    [{ title := "A", url := "c2u0" }, { title := "B", url := "c2u1" }]
    { task := { taskBase with id := 2, total_chapters := 2 }
      rows := [], events := [], clock := 1, processed := 0 }

/-- Two-chapter run where chapter 0's fetch succeeds with empty content and
chapter 1 succeeds with real content. -/
def runC3 : LoopState :=
  cacheChapters "https://site/novel/3"
    (fun u => if u == "c3u0" then Except.ok "" else Except.ok "text")
    (fun _ => false)
    [{ title := "A", url := "c3u0" }, { title := "B", url := "c3u1" }]
    { task := { taskBase with id := 3, total_chapters := 2 }
      rows := [], events := [], clock := 1, processed := 0 }

/-- A mid-run loop state with one chapter outstanding, used for the
failure-iteration counterexample. -/
def stC4 : LoopState :=
  { task := { taskBase with id := 4, total_chapters := 1 }
    rows := [], events := [], clock := 5, processed := 0 }

/-- A mid-run loop state whose chapter store already holds the chapter url
`c4wu0`, used to exercise the skip branch. -/
def stC4w : LoopState :=
  { task := { taskBase with id := 4, total_chapters := 1, status := "running" }
    rows := [{ task_id := 4, novel_url := "https://site/novel/4"
               chapter_title := "A", chapter_url := "c4wu0"
               chapter_content := "old", chapter_index := 0, word_count := 3 }]
    events := [], clock := 7, processed := 0 }

/-- A loop state whose chapter store holds a row for chapter url `c5u0`
under a different novel url than the one being cached. -/
def stC5 : LoopState :=
  { task := { taskBase with id := 5, total_chapters := 1, status := "running" }
    rows := [{ task_id := 99, novel_url := "https://site/other-novel"
               chapter_title := "X", chapter_url := "c5u0"
               chapter_content := "old", chapter_index := 0, word_count := 3 }]
    events := [], clock := 2, processed := 0 }

/-- A loop state whose chapter store holds the chapter url `c5wu0` for the
same novel, used to witness the amended skip rule. -/
def stC5w : LoopState :=
  { task := { taskBase with id := 5, total_chapters := 1, status := "running" }
    rows := [{ task_id := 5, novel_url := "https://site/novel/5"
               chapter_title := "A", chapter_url := "c5wu0"
               chapter_content := "old", chapter_index := 0, word_count := 3 }]
    events := [], clock := 3, processed := 0 }

/-- Three chapters with pairwise distinct urls, for the failure-isolation
witness run. -/
def chaptersC7 : List ChapterInfo :=
  [{ title := "A", url := "c7u0" }, { title := "B", url := "c7u1" },
   { title := "C", url := "c7u2" }]

/-- A fetcher that raises exactly on the middle chapter of `chaptersC7`. -/
def fetchC7 (u : String) : Except String String :=
  if u == "c7u1" then Except.error "injected" else Except.ok "body"

/-- Initial loop state for the failure-isolation witness run. -/
def stC7 : LoopState :=
  { task := { taskBase with id := 7, total_chapters := 3 }
    rows := [], events := [], clock := 1, processed := 0 }

/-- A task at 50% progress, for the subscription witness. -/
def taskC8 : CacheTaskRec :=
  { taskBase with
    id := 8
    status := "running"
    total_chapters := 4
    cached_chapters := 2
    failed_chapters := 0
    updated_at := 9 }

/-- A task store holding only `taskC8`. -/
def storeC8 : List CacheTaskRec := [taskC8]

/-- A mid-run loop state with no row for chapter url `c9u0`, used to witness
the empty-content iteration. -/
def stC9 : LoopState :=
  { task := { taskBase with id := 9, total_chapters := 2, status := "running" }
    rows := [], events := [], clock := 4, processed := 0 }

/-! Helper lemmas: branch characterizations of `processChapter`. -/

/-- If a row with the chapter's url is already present, the iteration skips
the fetch: no row is added, `cached_chapters` is set to `i + 1`,
`updated_at` is touched, and one snapshot is published. -/
theorem processChapter_skip (novelUrl : String)
    (fetch : String → Except String String) (i : Nat) (c : ChapterInfo)
    (st : LoopState)
    (h : st.rows.any (fun r => r.chapter_url == c.url) = true) :
    processChapter novelUrl fetch i c st =
      { st with
        processed := st.processed + 1
        task := { st.task with cached_chapters := i + 1, updated_at := st.clock }
        clock := st.clock + 1
        events := notifyProgress st.events
          { st.task with cached_chapters := i + 1, updated_at := st.clock } } := by
  unfold processChapter
  dsimp only
  rw [if_pos h]

/-- If no row with the chapter's url is present and the fetch raises, the
iteration only increments `failed_chapters`. -/
theorem processChapter_fetch_error (novelUrl : String)
    (fetch : String → Except String String) (i : Nat) (c : ChapterInfo)
    (st : LoopState) (e : String)
    (h : st.rows.any (fun r => r.chapter_url == c.url) = false)
    (hfe : fetch c.url = Except.error e) :
    processChapter novelUrl fetch i c st =
      { st with
        processed := st.processed + 1
        task := { st.task with
                  failed_chapters := st.task.failed_chapters + 1 } } := by
  unfold processChapter
  dsimp only
  rw [if_neg (by simp [h]), hfe]

/-- If no row with the chapter's url is present and the fetch returns empty
content, the iteration changes nothing at all. -/
theorem processChapter_empty_content (novelUrl : String)
    (fetch : String → Except String String) (i : Nat) (c : ChapterInfo)
    (st : LoopState)
    (h : st.rows.any (fun r => r.chapter_url == c.url) = false)
    (hfe : fetch c.url = Except.ok "") :
    processChapter novelUrl fetch i c st =
      { st with processed := st.processed + 1 } := by
  unfold processChapter
  dsimp only
  rw [if_neg (by simp [h]), hfe]
  dsimp only
  rw [if_pos rfl]

/-- If no row with the chapter's url is present and the fetch returns
nonempty content, the iteration stores the row, sets `cached_chapters` to
`i + 1`, touches `updated_at`, and publishes one snapshot. -/
theorem processChapter_success (novelUrl : String)
    (fetch : String → Except String String) (i : Nat) (c : ChapterInfo)
    (st : LoopState) (content : String)
    (h : st.rows.any (fun r => r.chapter_url == c.url) = false)
    (hfe : fetch c.url = Except.ok content) (hne : content ≠ "") :
    processChapter novelUrl fetch i c st =
      { st with
        processed := st.processed + 1
        rows := st.rows ++
          [{ task_id := st.task.id
             novel_url := novelUrl
             chapter_title := c.title
             chapter_url := c.url
             chapter_content := content
             chapter_index := i
             word_count := content.length }]
        task := { st.task with cached_chapters := i + 1, updated_at := st.clock }
        clock := st.clock + 1
        events := notifyProgress st.events
          { st.task with cached_chapters := i + 1, updated_at := st.clock } } := by
  unfold processChapter
  dsimp only
  rw [if_neg (by simp [h]), hfe]
  dsimp only
  rw [if_neg hne]

/-- Bridge from a pointwise freshness hypothesis to the boolean dedup check
the loop performs. -/
theorem any_url_eq_false (rows : List ChapterCacheRow) (u : String)
    (h : ∀ r ∈ rows, r.chapter_url ≠ u) :
    rows.any (fun r => r.chapter_url == u) = false := by
  simp only [List.any_eq_false, beq_iff_eq]
  exact h

/-- Every row present after one iteration was either already present or
carries the chapter url just handled. -/
theorem processChapter_rows_mem (novelUrl : String)
    (fetch : String → Except String String) (i : Nat) (c : ChapterInfo)
    (st : LoopState) :
    ∀ r ∈ (processChapter novelUrl fetch i c st).rows,
      r ∈ st.rows ∨ r.chapter_url = c.url := by
  intro r hr
  cases hA : st.rows.any (fun r => r.chapter_url == c.url) with
  | true =>
      rw [processChapter_skip novelUrl fetch i c st hA] at hr
      exact Or.inl hr
  | false =>
      cases hfe : fetch c.url with
      | error e =>
          rw [processChapter_fetch_error novelUrl fetch i c st e hA hfe] at hr
          exact Or.inl hr
      | ok content =>
          by_cases hc : content = ""
          · subst hc
            rw [processChapter_empty_content novelUrl fetch i c st hA hfe] at hr
            exact Or.inl hr
          · rw [processChapter_success novelUrl fetch i c st content hA hfe hc]
              at hr
            rcases List.mem_append.mp hr with h1 | h2
            · exact Or.inl h1
            · right
              rw [List.mem_singleton.mp h2]

/-- One iteration increments `processed` by one, never touches `status`,
and increments `failed_chapters` exactly when the chapter was not already
cached and its fetch raised. -/
theorem processChapter_counters (novelUrl : String)
    (fetch : String → Except String String) (i : Nat) (c : ChapterInfo)
    (st : LoopState)
    (h : st.rows.any (fun r => r.chapter_url == c.url) = false) :
    (processChapter novelUrl fetch i c st).processed = st.processed + 1 ∧
    (processChapter novelUrl fetch i c st).task.status = st.task.status ∧
    (processChapter novelUrl fetch i c st).task.failed_chapters
      = st.task.failed_chapters + (if isErr (fetch c.url) then 1 else 0) := by
  cases hfe : fetch c.url with
  | error e =>
      rw [processChapter_fetch_error novelUrl fetch i c st e h hfe]
      simp [isErr, hfe]
  | ok content =>
      by_cases hc : content = ""
      · subst hc
        rw [processChapter_empty_content novelUrl fetch i c st h hfe]
        simp [isErr, hfe]
      · rw [processChapter_success novelUrl fetch i c st content h hfe hc]
        simp [isErr, hfe]

/-- Running the loop with no cancellation signal processes every chapter,
never changes the status, and raises `failed_chapters` by exactly the
number of chapters whose fetch raised, provided the chapter urls are
pairwise distinct and none is already in the chapter store. -/
theorem loopChapters_no_cancel (novelUrl : String)
    (fetch : String → Except String String) :
    ∀ (chs : List ChapterInfo) (i : Nat) (st : LoopState),
      (chs.map (fun c => c.url)).Nodup →
      (∀ c ∈ chs, ∀ r ∈ st.rows, r.chapter_url ≠ c.url) →
      (loopChapters novelUrl fetch (fun _ => false) i chs st).task.failed_chapters
          = st.task.failed_chapters + chs.countP (fun c => isErr (fetch c.url)) ∧
      (loopChapters novelUrl fetch (fun _ => false) i chs st).processed
          = st.processed + chs.length ∧
      (loopChapters novelUrl fetch (fun _ => false) i chs st).task.status
          = st.task.status := by
  intro chs
  induction chs with
  | nil =>
      intro i st _ _
      simp [loopChapters]
  | cons c rest ih =>
      intro i st hnd hfresh
      have hanyf : st.rows.any (fun r => r.chapter_url == c.url) = false :=
        any_url_eq_false st.rows c.url
          (hfresh c (List.mem_cons_self c rest))
      have hcnt := processChapter_counters novelUrl fetch i c st hanyf
      have hnd' : (rest.map (fun c => c.url)).Nodup :=
        (List.nodup_cons.mp (by simpa using hnd)).2
      have hnotin : c.url ∉ rest.map (fun c => c.url) :=
        (List.nodup_cons.mp (by simpa using hnd)).1
      have hfresh' : ∀ c' ∈ rest,
          ∀ r ∈ (processChapter novelUrl fetch i c st).rows,
            r.chapter_url ≠ c'.url := by
        intro c' hc' r hr
        rcases processChapter_rows_mem novelUrl fetch i c st r hr with hold | hnew
        · exact hfresh c' (List.mem_cons_of_mem c hc') r hold
        · rw [hnew]
          intro he
          exact hnotin (he ▸ List.mem_map_of_mem (fun c => c.url) hc')
      have ihr := ih (i + 1) (processChapter novelUrl fetch i c st) hnd' hfresh'
      have hstep :
          loopChapters novelUrl fetch (fun _ => false) i (c :: rest) st
            = loopChapters novelUrl fetch (fun _ => false) (i + 1) rest
                (processChapter novelUrl fetch i c st) := by
        simp [loopChapters]
      rw [hstep]
      refine ⟨?_, ?_, ?_⟩
      · rw [ihr.1, hcnt.2.2, List.countP_cons]
        cases hE : isErr (fetch c.url) <;> (simp [hE]; try omega)
      · rw [ihr.2.1, hcnt.1]
        simp [List.length_cons]
        omega
      · rw [ihr.2.2, hcnt.2.1]

/-! Claim theorems. -/

/-- C1: falsifying evaluation. In the two-chapter run `runC1`, the
cancellation registry reports cancelled from the check before iteration 1,
and the loop does halt within one iteration (only chapter 0 is processed
and stored); `cancel_task` on the running task persists status `cancelled`
and returns true; yet the completion block that follows the loop persists a
final status of `completed`, not `cancelled`, overwriting what
`cancel_task` wrote. -/
theorem cancel_final_status_overwritten :
    runC1.processed = 1 ∧ runC1.rows.length = 1 ∧
    cancel_task (some { taskBase with status := "running" }) 3
      = (true, some { taskBase with status := "cancelled", updated_at := 3 }) ∧
    runC1.task.status = "completed" ∧ runC1.task.status ≠ "cancelled" := by
  decide

/-- C2: falsifying evaluation. In the two-chapter run `runC2` (chapter 0's
fetch raises, chapter 1 succeeds), the final counters are
`cached_chapters = 2`, `failed_chapters = 1` against `total_chapters = 2`,
so `cached_chapters + failed_chapters` exceeds `total_chapters`: the line
`task.cached_chapters = i + 1` counts the failed chapter as cached. -/
theorem counter_invariant_violated :
    runC2.task.cached_chapters = 2 ∧ runC2.task.failed_chapters = 1 ∧
    runC2.task.total_chapters = 2 ∧
    runC2.task.total_chapters
      < runC2.task.cached_chapters + runC2.task.failed_chapters := by
  decide

/-- C3: falsifying evaluation. In the two-chapter run `runC3` (chapter 0
fetches successfully but returns empty content, chapter 1 succeeds), the
run completes with exactly one stored `ChapterCache` row (the chapter urls
are distinct and the store started empty), yet the final `cached_chapters`
is 2 — strictly more than the number of distinct chapter urls stored. -/
theorem cached_count_exceeds_stored_rows :
    runC3.task.status = "completed" ∧ runC3.rows.length = 1 ∧
    runC3.task.cached_chapters = 2 ∧
    runC3.rows.length < runC3.task.cached_chapters := by
  decide

/-- C6: if `get_chapter_list` returns an empty sequence, `create_cache_task`
raises before any `db.add`, so it fails with an error and the task store is
returned exactly as it was — no `CacheTask` row is persisted. Holds for
either value of the adapter-resolution flag. -/
theorem create_empty_list_no_task (hasCrawler : Bool)
    (store : List CacheTaskRec) (novelUrl : String) (newId now : Nat) :
    (create_cache_task hasCrawler (ChapterListResult.ok []) store novelUrl
        newId now).1 = store ∧
    ∃ msg, (create_cache_task hasCrawler (ChapterListResult.ok []) store
        novelUrl newId now).2 = Except.error msg := by
  cases hasCrawler
  · exact ⟨rfl, _, rfl⟩
  · exact ⟨rfl, _, rfl⟩

/-- C7: failure isolation. With no cancellation signal, pairwise-distinct
chapter urls none of which is already cached, a run of `_cache_chapters`
enters the loop body for every chapter (failures never abort the loop),
raises `failed_chapters` by exactly the number of chapters whose fetch
raised, and still ends in the terminal status `completed`. -/
theorem failure_isolation (novelUrl : String)
    (fetch : String → Except String String) (chapters : List ChapterInfo)
    (st0 : LoopState)
    (hnd : (chapters.map (fun c => c.url)).Nodup)
    (hfresh : ∀ c ∈ chapters, ∀ r ∈ st0.rows, r.chapter_url ≠ c.url) :
    (cacheChapters novelUrl fetch (fun _ => false) chapters st0).task.status
        = "completed" ∧
    (cacheChapters novelUrl fetch (fun _ => false) chapters st0).processed
        = st0.processed + chapters.length ∧
    (cacheChapters novelUrl fetch (fun _ => false) chapters st0).task.failed_chapters
        = st0.task.failed_chapters
            + chapters.countP (fun c => isErr (fetch c.url)) := by
  have hloop := loopChapters_no_cancel novelUrl fetch chapters 0
    { st0 with
      task := { st0.task with status := "running", updated_at := st0.clock }
      clock := st0.clock + 1 }
    hnd hfresh
  exact ⟨rfl, hloop.2.1, hloop.1⟩

/-- C7 witness: the three-chapter run `chaptersC7` from the empty store with
`fetchC7` raising exactly on the middle chapter. -/
theorem failure_isolation_witness :
    (cacheChapters "https://site/novel/7" fetchC7 (fun _ => false) chaptersC7
        stC7).task.status = "completed" ∧
    (cacheChapters "https://site/novel/7" fetchC7 (fun _ => false) chaptersC7
        stC7).processed = stC7.processed + chaptersC7.length ∧
    (cacheChapters "https://site/novel/7" fetchC7 (fun _ => false) chaptersC7
        stC7).task.failed_chapters
      = stC7.task.failed_chapters
          + chaptersC7.countP (fun c => isErr (fetchC7 c.url)) :=
  failure_isolation "https://site/novel/7" fetchC7 chaptersC7 stC7
    (by decide) (by decide)

/-- C4: counterexample. In the one-chapter state `stC4`, the chapter is not
yet cached and its fetch raises; the iteration increments `failed_chapters`
but publishes no progress snapshot and leaves `updated_at` untouched —
refuting the claim that every iteration (including a fetch failure) updates
`updated_at` and pushes a snapshot. -/
theorem failure_iteration_no_snapshot :
    (processChapter "https://site/novel/4" (fun _ => Except.error "net down")
        0 { title := "A", url := "c4u0" } stC4).task.failed_chapters
      = stC4.task.failed_chapters + 1 ∧
    (processChapter "https://site/novel/4" (fun _ => Except.error "net down")
        0 { title := "A", url := "c4u0" } stC4).events = stC4.events ∧
    (processChapter "https://site/novel/4" (fun _ => Except.error "net down")
        0 { title := "A", url := "c4u0" } stC4).task.updated_at
      = stC4.task.updated_at := by
  decide

/-- C4 amended: after a success or a skip iteration the loop updates
`cached_chapters` and `updated_at` and publishes exactly one snapshot of
the freshly updated task before moving to the next chapter; after a
fetch-failure iteration it only increments `failed_chapters`, leaving
`updated_at` untouched and publishing no snapshot. -/
theorem per_chapter_update_amended (novelUrl : String)
    (fetch : String → Except String String) (i : Nat) (c : ChapterInfo)
    (st : LoopState) :
    (st.rows.any (fun r => r.chapter_url == c.url) = true →
      (processChapter novelUrl fetch i c st).task.cached_chapters = i + 1 ∧
      (processChapter novelUrl fetch i c st).task.updated_at = st.clock ∧
      (processChapter novelUrl fetch i c st).events
        = st.events
            ++ [progressDataOf (processChapter novelUrl fetch i c st).task]) ∧
    (st.rows.any (fun r => r.chapter_url == c.url) = false →
      isErr (fetch c.url) = true →
      (processChapter novelUrl fetch i c st).task.failed_chapters
          = st.task.failed_chapters + 1 ∧
      (processChapter novelUrl fetch i c st).events = st.events ∧
      (processChapter novelUrl fetch i c st).task.updated_at
          = st.task.updated_at) ∧
    (∀ content, st.rows.any (fun r => r.chapter_url == c.url) = false →
      fetch c.url = Except.ok content → content ≠ "" →
      (processChapter novelUrl fetch i c st).task.cached_chapters = i + 1 ∧
      (processChapter novelUrl fetch i c st).task.updated_at = st.clock ∧
      (processChapter novelUrl fetch i c st).events
        = st.events
            ++ [progressDataOf (processChapter novelUrl fetch i c st).task]) := by
  refine ⟨fun hA => ?_, fun hA hE => ?_, fun content hA hok hne => ?_⟩
  · rw [processChapter_skip novelUrl fetch i c st hA]
    exact ⟨rfl, rfl, rfl⟩
  · cases hfe : fetch c.url with
    | error e =>
        rw [processChapter_fetch_error novelUrl fetch i c st e hA hfe]
        exact ⟨rfl, rfl, rfl⟩
    | ok content => simp [isErr, hfe] at hE
  · rw [processChapter_success novelUrl fetch i c st content hA hok hne]
    exact ⟨rfl, rfl, rfl⟩

/-- C4 witness: the skip branch of the amended statement, applied to the
concrete state `stC4w` whose store already holds the chapter's url. -/
theorem per_chapter_update_amended_witness :
    (processChapter "https://site/novel/4" (fun _ => Except.error "unused")
        0 { title := "A", url := "c4wu0" } stC4w).task.cached_chapters = 1 ∧
    (processChapter "https://site/novel/4" (fun _ => Except.error "unused")
        0 { title := "A", url := "c4wu0" } stC4w).task.updated_at
      = stC4w.clock ∧
    (processChapter "https://site/novel/4" (fun _ => Except.error "unused")
        0 { title := "A", url := "c4wu0" } stC4w).events
      = stC4w.events
          ++ [progressDataOf (processChapter "https://site/novel/4"
                (fun _ => Except.error "unused") 0
                { title := "A", url := "c4wu0" } stC4w).task] :=
  (per_chapter_update_amended "https://site/novel/4"
      (fun _ => Except.error "unused") 0 { title := "A", url := "c4wu0" }
      stC4w).1 (by decide)

/-- C5: counterexample. The store of `stC5` holds a row for chapter url
`c5u0` recorded under a different novel url than the one being cached, yet
the iteration still skips: no fetch happens (the fetcher raises, but
`failed_chapters` stays 0), no row is added, and `cached_chapters` is set —
refuting the claim that a row under a different novel source url does not
cause a skip. -/
theorem dedup_ignores_novel_url :
    (∀ r ∈ stC5.rows, r.novel_url ≠ "https://site/novel/5") ∧
    (processChapter "https://site/novel/5" (fun _ => Except.error "net") 0
        { title := "T", url := "c5u0" } stC5).rows = stC5.rows ∧
    (processChapter "https://site/novel/5" (fun _ => Except.error "net") 0
        { title := "T", url := "c5u0" } stC5).task.failed_chapters
      = stC5.task.failed_chapters ∧
    (processChapter "https://site/novel/5" (fun _ => Except.error "net") 0
        { title := "T", url := "c5u0" } stC5).task.cached_chapters = 1 := by
  decide

/-- C5 amended: a chapter is skipped as already cached (no network fetch —
the iteration's outcome is independent of the fetcher — and no new row)
exactly when some `ChapterCache` row with the same chapter url exists,
regardless of which novel source url that row was stored under; when no
such row exists and the fetch raises, the chapter is not treated as cached
and `failed_chapters` is incremented. -/
theorem skip_iff_chapter_url_cached (novelUrl : String)
    (fetch : String → Except String String) (i : Nat) (c : ChapterInfo)
    (st : LoopState) :
    (st.rows.any (fun r => r.chapter_url == c.url) = true →
      (processChapter novelUrl fetch i c st).rows = st.rows ∧
      (processChapter novelUrl fetch i c st).task.failed_chapters
          = st.task.failed_chapters ∧
      (processChapter novelUrl fetch i c st).task.cached_chapters = i + 1 ∧
      ∀ fetch2, processChapter novelUrl fetch2 i c st
          = processChapter novelUrl fetch i c st) ∧
    (st.rows.any (fun r => r.chapter_url == c.url) = false →
      isErr (fetch c.url) = true →
      (processChapter novelUrl fetch i c st).task.failed_chapters
          = st.task.failed_chapters + 1) := by
  constructor
  · intro hA
    rw [processChapter_skip novelUrl fetch i c st hA]
    refine ⟨rfl, rfl, rfl, fun fetch2 => ?_⟩
    rw [processChapter_skip novelUrl fetch2 i c st hA]
  · intro hA hE
    cases hfe : fetch c.url with
    | error e =>
        rw [processChapter_fetch_error novelUrl fetch i c st e hA hfe]
    | ok content => simp [isErr, hfe] at hE

/-- C5 witness: the skip branch of the amended statement at the concrete
state `stC5w`, whose store holds the chapter's url under the same novel. -/
theorem skip_iff_chapter_url_cached_witness :
    (processChapter "https://site/novel/5" (fun _ => Except.ok "fresh") 0
        { title := "A", url := "c5wu0" } stC5w).rows = stC5w.rows ∧
    (processChapter "https://site/novel/5" (fun _ => Except.ok "fresh") 0
        { title := "A", url := "c5wu0" } stC5w).task.failed_chapters
      = stC5w.task.failed_chapters ∧
    (processChapter "https://site/novel/5" (fun _ => Except.ok "fresh") 0
        { title := "A", url := "c5wu0" } stC5w).task.cached_chapters = 1 ∧
    ∀ fetch2, processChapter "https://site/novel/5" fetch2 0
        { title := "A", url := "c5wu0" } stC5w
      = processChapter "https://site/novel/5" (fun _ => Except.ok "fresh") 0
          { title := "A", url := "c5wu0" } stC5w :=
  (skip_iff_chapter_url_cached "https://site/novel/5"
      (fun _ => Except.ok "fresh") 0 { title := "A", url := "c5wu0" }
      stC5w).1 (by decide)

/-- C8: on every websocket subscription to an existing task, the endpoint
registers the channel and immediately sends one snapshot reflecting the
task's current persisted row — its current status and counters — without
waiting for the next mutation of the task. -/
theorem subscribe_immediate_snapshot (store : List CacheTaskRec)
    (conns : List (Nat × Nat)) (task_id ws : Nat) (task : CacheTaskRec)
    (h : store.find? (fun t => t.id == task_id) = some task) :
    (cache_progress_websocket store conns task_id ws).1
        = add_websocket_connection conns task_id ws ∧
    ∃ s, (cache_progress_websocket store conns task_id ws).2 = some s ∧
      s.status = task.status ∧
      s.total_chapters = task.total_chapters ∧
      s.cached_chapters = task.cached_chapters ∧
      s.failed_chapters = task.failed_chapters ∧
      s.updated_at = task.updated_at ∧
      s.error_message = task.error_message := by
  unfold cache_progress_websocket
  rw [h]
  exact ⟨rfl, _, rfl, rfl, rfl, rfl, rfl, rfl, rfl⟩

/-- C8 witness: a late subscription to `taskC8`, which is already at 50%
progress (2 of 4 chapters cached), immediately receives that 50% state. -/
theorem subscribe_immediate_snapshot_witness :
    (cache_progress_websocket storeC8 [] 8 77).1
        = add_websocket_connection [] 8 77 ∧
    ∃ s, (cache_progress_websocket storeC8 [] 8 77).2 = some s ∧
      s.status = "running" ∧
      s.total_chapters = 4 ∧
      s.cached_chapters = 2 ∧
      s.failed_chapters = 0 ∧
      s.updated_at = 9 ∧
      s.error_message = none :=
  subscribe_immediate_snapshot storeC8 [] 8 77 taskC8 (by decide)

/-- C9: an iteration whose chapter is not yet cached and whose fetch
succeeds with empty content stores no row, increments neither counter,
touches neither `updated_at` nor the clock, and publishes no snapshot —
the state is unchanged except for having entered the loop body — and any
run of `_cache_chapters` (in particular one containing such iterations)
still ends with status `completed`. -/
theorem empty_content_iteration_noop (novelUrl : String)
    (fetch : String → Except String String) (i : Nat) (c : ChapterInfo)
    (st : LoopState)
    (h : st.rows.any (fun r => r.chapter_url == c.url) = false)
    (hfe : fetch c.url = Except.ok "") :
    processChapter novelUrl fetch i c st
        = { st with processed := st.processed + 1 } ∧
    ∀ (chapters : List ChapterInfo) (st0 : LoopState),
      (cacheChapters novelUrl fetch (fun _ => false) chapters st0).task.status
        = "completed" := by
  exact ⟨processChapter_empty_content novelUrl fetch i c st h hfe,
    fun chapters st0 => rfl⟩

/-- C9 witness: the empty-content iteration at the concrete state `stC9`,
whose run `runC3` also demonstrates the completed final status. -/
theorem empty_content_iteration_noop_witness :
    processChapter "https://site/novel/9"
        (fun _ => Except.ok "") 0 { title := "A", url := "c9u0" } stC9
      = { stC9 with processed := stC9.processed + 1 } ∧
    ∀ (chapters : List ChapterInfo) (st0 : LoopState),
      (cacheChapters "https://site/novel/9" (fun _ => Except.ok "")
          (fun _ => false) chapters st0).task.status = "completed" :=
  empty_content_iteration_noop "https://site/novel/9"
    (fun _ => Except.ok "") 0 { title := "A", url := "c9u0" } stC9
    (by decide) rfl

/-- C10: for every list call, the `total` field of the response equals the
number of tasks in the returned page, which is at most `limit` — it is not
the count of all tasks matching the status filter across all pages. -/
theorem list_total_is_page_length (store : List CacheTaskRec)
    (status : Option String) (limit offset : Nat) :
    (get_cache_tasks_endpoint store status limit offset).total
        = (get_cache_tasks_endpoint store status limit offset).tasks.length ∧
    (get_cache_tasks_endpoint store status limit offset).tasks.length
        ≤ limit := by
  constructor
  · rfl
  · show (get_cache_tasks store status limit offset).length ≤ limit
    unfold get_cache_tasks
    dsimp only
    rw [List.length_take]
    exact min_le_left _ _
